import Mathlib

/-!
Shallow embedding of `gemini_addon.py` (Blender Gemini assistant add-on).

Python strings are modelled as `List Char` (wrapped back into `String` at the
interface), Python `str.replace`/`str.strip` as executable list functions, the
process environment and the `.env` file as explicit data, and every external
effect (the generative endpoint, `exec`, the audio stream) as an oracle field
of `ExtEnv`.  Each Blender operator's `execute` method becomes a pure function
from the oracle plus the settings record to an outcome record that captures the
reports it issued, the value it returned, and the observable side effects the
claims speak about (network calls, client construction, transcript growth,
temp-file fate).
-/

namespace BlenderMCP

/-! ### Python string primitives -/

/-- Characters the Python `str.strip()` method removes (Python whitespace). -/
def pyIsSpace (c : Char) : Bool :=
  c == ' ' || c == '\t' || c == '\n' || c == '\r' || c == '\x0b' || c == '\x0c'

/-- Drop the characters satisfying `p` from both ends of the list; this is the
semantics of Python `str.strip()` (with `p = pyIsSpace`) and of
`str.strip(chars)` (with `p` testing membership in `chars`). -/
def stripWhile (p : Char → Bool) (l : List Char) : List Char :=
  ((l.dropWhile p).reverse.dropWhile p).reverse

/-- Boolean test that `pat` is an initial segment of `l`. -/
def leadsWith : List Char → List Char → Bool
  | [], _ => true
  | _ :: _, [] => false
  | p :: ps, c :: cs => p == c && leadsWith ps cs

/-- Boolean test that `pat` occurs as a contiguous segment somewhere in `l`. -/
def occursIn (pat : List Char) : List Char → Bool
  | [] => leadsWith pat []
  | c :: rest => leadsWith pat (c :: rest) || occursIn pat rest

/-- Fuelled left-to-right scan replacing every non-overlapping occurrence of
`pat` by `rep`, the semantics of Python `str.replace(pat, rep)` for a
non-empty `pat` once the fuel is at least the length of the list. -/
def replaceAllF (pat rep : List Char) : Nat → List Char → List Char
  | _, [] => []
  | 0, s => s
  | fuel + 1, c :: rest =>
    if leadsWith pat (c :: rest) then
      rep ++ replaceAllF pat rep fuel ((c :: rest).drop pat.length)
    else
      c :: replaceAllF pat rep fuel rest

/-- Python `str.replace(pat, rep)` on `List Char`, for non-empty `pat`. -/
def pyReplaceAll (pat rep l : List Char) : List Char :=
  replaceAllF pat rep l.length l

/-- The opening fence marker removed first by the add-on. -/
def fencePythonMark : List Char := "```python".data

/-- The bare fence marker removed second by the add-on. -/
def fenceMark : List Char := "```".data

/-- Embedding of line 216 / line 364 of `gemini_addon.py`:
`response.text.replace("```python", "").replace("```", "").strip()`. -/
def strip_fences (s : String) : String :=
  String.mk (stripWhile pyIsSpace
    (pyReplaceAll fenceMark [] (pyReplaceAll fencePythonMark [] s.data)))

/-- Python `s.strip()` on its own (whitespace trim at both ends), used to state
what the fence-stripping step does on inputs with no triple backtick. -/
def py_strip (s : String) : String :=
  String.mk (stripWhile pyIsSpace s.data)

/-! ### The `.env` parser (`_manual_env_parse`) -/

/-- Python `str.strip(c)` for a single strip character `c`. -/
def stripCharEnds (c : Char) (l : List Char) : List Char :=
  stripWhile (· == c) l

/-- Python `line.split(sep, 1)` at a character, returning the part before the
first occurrence and the part after it (callers guard on the occurrence). -/
def splitOnceAt (c : Char) : List Char → List Char × List Char
  | [] => ([], [])
  | x :: xs =>
    if x == c then ([], xs)
    else
      let r := splitOnceAt c xs
      (x :: r.1, r.2)

/-- Processing of one line of the `.env` file by `_manual_env_parse` in
`gemini_addon.py` (strip the line; skip blanks, `#` comments and lines with no
`=`; otherwise split at the first `=`, strip the key, strip the value and its
surrounding double then single quotes, and record the assignment, later lines
overriding earlier ones). -/
def parse_env_line (acc : String → Option String) (rawLine : String) :
    String → Option String :=
  let line := stripWhile pyIsSpace rawLine.data
  if line = [] || leadsWith ['#'] line || !(line.contains '=') then acc
  else
    let kv := splitOnceAt '=' line
    let key := String.mk (stripWhile pyIsSpace kv.1)
    let value := String.mk (stripCharEnds '\'' (stripCharEnds '"'
      (stripWhile pyIsSpace kv.2)))
    fun k => if k = key then some value else acc k

/-- Embedding of `_manual_env_parse` of `gemini_addon.py`: `none` models a
missing `.env` file (the function returns the empty dict), otherwise the lines
are folded into a lookup table. -/
def manual_env_parse : Option (List String) → String → Option String
  | none => fun _ => none
  | some lines => lines.foldl parse_env_line (fun _ => none)

/-- Python truthiness of an optional string: `None` and `""` are falsy. -/
def truthy : Option String → Bool
  | none => false
  | some s => !(s == "")

end BlenderMCP

namespace BlenderMCP

/-! ### Data model of the add-on -/

/-- Role tag of a transcript entry (`GEMINI_MCP_ChatLine.role`). -/
inductive Role where
  | user
  | ai
deriving DecidableEq

/-- One transcript entry (`GEMINI_MCP_ChatLine`). -/
structure ChatLine where
  role : Role
  content : String
deriving DecidableEq

/-- The tri-state connection status enum of `GEMINI_MCP_Settings`. -/
inductive ConnStatus where
  | NONE
  | SUCCESS
  | FAILED
deriving DecidableEq

/-- The scene settings record (`GEMINI_MCP_Settings`). -/
structure Settings where
  api_key : String
  prompt_input : String
  model_name : String
  connection_status : ConnStatus
  is_recording : Bool
  chat_history : List ChatLine
deriving DecidableEq

/-- One `self.report(...)` call: severity level and message. -/
structure Report where
  level : String
  msg : String
deriving DecidableEq

/-- External world the operators interact with: the process environment, the
`.env` file contents (`none` = file absent), the remote text endpoint
(`generate model contents`), the remote multimodal endpoint
(`generateAudio model audioSamples`), the `exec` of generated code, and the
start of the audio input stream.  `Except.error e` models a raised exception
whose `str(e)` is `e`. -/
structure ExtEnv where
  procEnv : String → Option String
  envFile : Option (List String)
  generate : String → String → Except String String
  generateAudio : String → List Int → Except String String
  runCode : String → Except String Unit
  startStream : Except String Unit

/-- The three-tier key resolution shared verbatim by
`GEMINI_MCP_OT_TestConnection.execute` (lines 154-162),
`GEMINI_MCP_OT_Execute.execute` (lines 196-203) and
`GEMINI_MCP_OT_VoiceRecord.stop_recording` (lines 327-331):
`load_dotenv` fills the process environment from the file without overriding
existing variables, `os.getenv` reads it, a falsy result falls back to
`_manual_env_parse`, and a still-falsy result falls back to the UI key.
The automatic loader (`python-dotenv`, an external dependency) is modelled
with the same key=value parse as `_manual_env_parse`, matching the file format
the spec describes. -/
def resolve_api_key (ext : ExtEnv) (uiKey : String) : String :=
  let fileVars := manual_env_parse ext.envFile
  let envAfterLoad : Option String :=
    match ext.procEnv "GEMINI_API_KEY" with
    | some v => some v
    | none => fileVars "GEMINI_API_KEY"
  let afterManual : Option String :=
    if truthy envAfterLoad then envAfterLoad else fileVars "GEMINI_API_KEY"
  if truthy afterManual then afterManual.getD "" else uiKey

end BlenderMCP

namespace BlenderMCP

/-! ### Operator models -/

/-- Observable outcome of `GEMINI_MCP_OT_TestConnection.execute`. -/
structure TestOutcome where
  settings : Settings
  reports : List Report
  retval : String
  resolvedKey : String
  networkCalls : Nat

/-- Embedding of `GEMINI_MCP_OT_TestConnection.execute` (lines 143-179):
resolve the key; a falsy key reports `Missing API Key` and returns
`CANCELLED`; otherwise one `generate_content(model, "ping")` call is made,
success sets the status to `SUCCESS` with an informational notice, and an
exception sets it to `FAILED` reporting `Connection Failed: str(e)`. -/
def GEMINI_MCP_OT_TestConnection_execute (ext : ExtEnv) (s : Settings) :
    TestOutcome :=
  let api_key := resolve_api_key ext s.api_key
  if api_key = "" then
    { settings := s, reports := [⟨"ERROR", "Missing API Key"⟩],
      retval := "CANCELLED", resolvedKey := api_key, networkCalls := 0 }
  else
    match ext.generate s.model_name "ping" with
    | .ok _ =>
      { settings := { s with connection_status := .SUCCESS },
        reports := [⟨"INFO", "Gemini: Connection Successful!"⟩],
        retval := "FINISHED", resolvedKey := api_key, networkCalls := 1 }
    | .error e =>
      { settings := { s with connection_status := .FAILED },
        reports := [⟨"ERROR", "Connection Failed: " ++ e⟩],
        retval := "FINISHED", resolvedKey := api_key, networkCalls := 1 }

/-- Observable outcome of `GEMINI_MCP_OT_Execute.execute`. -/
structure ExecOutcome where
  settings : Settings
  reports : List Report
  retval : String
  resolvedKey : String
  networkCalls : Nat
  clientMade : Bool
  execed : List String

/-- The fixed system instruction of `GEMINI_MCP_OT_Execute.execute`. -/
def executeInstruction : String :=
  "You are a Blender Python expert. Output ONLY raw executable code. No markdown, no conversation. Task: "

/-- Embedding of `GEMINI_MCP_OT_Execute.execute` (lines 185-234): resolve the
key; a falsy key reports `Missing API Key` and returns `CANCELLED` before the
client is constructed; otherwise the client is made, one
`generate_content(model, instruction + prompt)` call happens, the reply is
fence-stripped and passed to `exec`; only when `exec` returns normally are the
two transcript entries appended and the success notice issued; any exception
from the call or from `exec` is reported as `Error: str(e)` with the settings
left unchanged.  The operator always returns `FINISHED` past the key check. -/
def GEMINI_MCP_OT_Execute_execute (ext : ExtEnv) (s : Settings) : ExecOutcome :=
  let api_key := resolve_api_key ext s.api_key
  if api_key = "" then
    { settings := s, reports := [⟨"ERROR", "Missing API Key"⟩],
      retval := "CANCELLED", resolvedKey := api_key, networkCalls := 0,
      clientMade := false, execed := [] }
  else
    let full_prompt := executeInstruction ++ s.prompt_input
    match ext.generate s.model_name full_prompt with
    | .error e =>
      { settings := s, reports := [⟨"ERROR", "Error: " ++ e⟩],
        retval := "FINISHED", resolvedKey := api_key, networkCalls := 1,
        clientMade := true, execed := [] }
    | .ok text =>
      let raw_code := strip_fences text
      match ext.runCode raw_code with
      | .error e =>
        { settings := s, reports := [⟨"ERROR", "Error: " ++ e⟩],
          retval := "FINISHED", resolvedKey := api_key, networkCalls := 1,
          clientMade := true, execed := [raw_code] }
      | .ok _ =>
        { settings := { s with chat_history := s.chat_history ++
            [⟨.user, s.prompt_input⟩,
             ⟨.ai, "Executed command: " ++ s.prompt_input⟩] },
          reports := [⟨"INFO", "Gemini: Script executed successfully."⟩],
          retval := "FINISHED", resolvedKey := api_key, networkCalls := 1,
          clientMade := true, execed := [raw_code] }

/-- Embedding of `GEMINI_MCP_OT_VoiceRecord.execute` (lines 255-293): a press
while recording clears the flag and returns `FINISHED`; otherwise the flag is
set, the input stream is started and the modal timer installed
(`RUNNING_MODAL`), and an exception while starting is reported with the flag
reset to `false` and `CANCELLED` returned.  The result is the updated settings
paired with the returned value. -/
def GEMINI_MCP_OT_VoiceRecord_execute (ext : ExtEnv) (s : Settings) :
    Settings × String :=
  if s.is_recording then
    ({ s with is_recording := false }, "FINISHED")
  else
    match ext.startStream with
    | .ok _ => ({ s with is_recording := true }, "RUNNING_MODAL")
    | .error _ => ({ s with is_recording := false }, "CANCELLED")

/-- Observable outcome of `GEMINI_MCP_OT_VoiceRecord.stop_recording`. -/
structure StopOutcome where
  settings : Settings
  reports : List Report
  retval : String
  resolvedKey : String
  networkCalls : Nat
  tempFileWritten : Bool
  tempFileExists : Bool
  execed : List String

/-- Embedding of `GEMINI_MCP_OT_VoiceRecord.stop_recording` (lines 295-388).
`recording` is the accumulated list of audio buffers; an empty list warns and
returns with no file written.  Otherwise the WAV file is written, the key is
resolved (a falsy key reports `Missing API Key` and returns `FINISHED` through
the `finally` block), one multimodal call is made, the reply is fence-stripped;
a non-empty stripped reply is passed to `exec` and, when `exec` returns
normally, exactly two transcript entries are appended; an empty stripped reply
only warns; any exception is reported as `Processing failed: str(e)`.  The
`finally` block removes the temp file on every one of these paths, so
`tempFileExists` is the file's existence after the handler returns.  The
recording flag is never touched here. -/
def GEMINI_MCP_OT_VoiceRecord_stop_recording (ext : ExtEnv) (s : Settings)
    (recording : List (List Int)) : StopOutcome :=
  if recording = [] then
    { settings := s, reports := [⟨"WARNING", "No audio recorded."⟩],
      retval := "FINISHED", resolvedKey := "", networkCalls := 0,
      tempFileWritten := false, tempFileExists := false, execed := [] }
  else
    let processing : Report := ⟨"INFO", "Processing voice command..."⟩
    let api_key := resolve_api_key ext s.api_key
    if api_key = "" then
      { settings := s, reports := [processing, ⟨"ERROR", "Missing API Key"⟩],
        retval := "FINISHED", resolvedKey := api_key, networkCalls := 0,
        tempFileWritten := true, tempFileExists := false, execed := [] }
    else
      match ext.generateAudio s.model_name recording.flatten with
      | .error e =>
        { settings := s,
          reports := [processing, ⟨"ERROR", "Processing failed: " ++ e⟩],
          retval := "FINISHED", resolvedKey := api_key, networkCalls := 1,
          tempFileWritten := true, tempFileExists := false, execed := [] }
      | .ok text =>
        let raw_code := strip_fences text
        if raw_code = "" then
          { settings := s,
            reports := [processing,
              ⟨"WARNING", "Gemini did not return any code."⟩],
            retval := "FINISHED", resolvedKey := api_key, networkCalls := 1,
            tempFileWritten := true, tempFileExists := false, execed := [] }
        else
          match ext.runCode raw_code with
          | .error e =>
            { settings := s,
              reports := [processing, ⟨"ERROR", "Processing failed: " ++ e⟩],
              retval := "FINISHED", resolvedKey := api_key, networkCalls := 1,
              tempFileWritten := true, tempFileExists := false,
              execed := [raw_code] }
          | .ok _ =>
            { settings := { s with chat_history := s.chat_history ++
                [⟨.user, "[Voice Command]"⟩,
                 ⟨.ai, "Executed voice command."⟩] },
              reports := [processing,
                ⟨"INFO", "Gemini: Voice command executed."⟩],
              retval := "FINISHED", resolvedKey := api_key, networkCalls := 1,
              tempFileWritten := true, tempFileExists := false,
              execed := [raw_code] }

/-- Embedding of `GEMINI_MCP_OT_VoiceRecord.modal` (lines 246-253): on a timer
event with the recording flag already cleared, the stop handler runs; every
other event passes through unchanged. -/
def GEMINI_MCP_OT_VoiceRecord_modal (ext : ExtEnv) (s : Settings)
    (recording : List (List Int)) (eventType : String) : Settings × String :=
  if eventType = "TIMER" && !s.is_recording then
    let r := GEMINI_MCP_OT_VoiceRecord_stop_recording ext s recording
    (r.settings, r.retval)
  else
    (s, "PASS_THROUGH")

end BlenderMCP

namespace BlenderMCP

/-! ### Lemmas about the string primitives -/

/-- The backtick character, recovered from a string literal. -/
def btick : Char := "`".data.headD ' '

theorem fenceMark_eq : fenceMark = [btick, btick, btick] := by decide

theorem fencePythonMark_eq : fencePythonMark = fenceMark ++ "python".data := by
  decide

theorem leadsWith_nil_iff (pat : List Char) :
    leadsWith pat [] = true ↔ pat = [] := by
  cases pat <;> simp [leadsWith]

theorem occursIn_nil_of_eq_nil (l : List Char) : occursIn [] l = true := by
  cases l <;> simp [occursIn, leadsWith]

theorem leadsWith_append (pat m y : List Char) (h : leadsWith pat m = true) :
    leadsWith pat (m ++ y) = true := by
  induction pat generalizing m with
  | nil => simp [leadsWith]
  | cons p ps ih =>
    cases m with
    | nil => simp [leadsWith] at h
    | cons c cs =>
      simp only [leadsWith, Bool.and_eq_true] at h
      simp only [List.cons_append, leadsWith, Bool.and_eq_true]
      exact ⟨h.1, ih cs h.2⟩

theorem leadsWith_of_concat (p1 p2 l : List Char)
    (h : leadsWith (p1 ++ p2) l = true) : leadsWith p1 l = true := by
  induction p1 generalizing l with
  | nil => simp [leadsWith]
  | cons a ps ih =>
    cases l with
    | nil => simp [leadsWith] at h
    | cons c cs =>
      simp only [List.cons_append, leadsWith, Bool.and_eq_true] at h
      simp only [leadsWith, Bool.and_eq_true]
      exact ⟨h.1, ih cs h.2⟩

theorem occursIn_cons (pat : List Char) (c : Char) (l : List Char)
    (h : occursIn pat l = true) : occursIn pat (c :: l) = true := by
  simp [occursIn, h]

theorem occursIn_append_left (pat m y : List Char)
    (h : occursIn pat m = true) : occursIn pat (m ++ y) = true := by
  induction m with
  | nil =>
    simp only [occursIn] at h
    rw [(leadsWith_nil_iff pat).mp h]
    simpa using occursIn_nil_of_eq_nil y
  | cons c cs ih =>
    simp only [occursIn, Bool.or_eq_true] at h
    rcases h with h | h
    · simp only [List.cons_append, occursIn, Bool.or_eq_true]
      exact Or.inl (by simpa using leadsWith_append pat (c :: cs) y h)
    · exact occursIn_cons pat c (cs ++ y) (ih h)

theorem occursIn_append_right (pat x m : List Char)
    (h : occursIn pat m = true) : occursIn pat (x ++ m) = true := by
  induction x with
  | nil => simpa using h
  | cons c cs ih => exact occursIn_cons pat c (cs ++ m) ih

theorem occursIn_of_concat (p1 p2 l : List Char)
    (h : occursIn (p1 ++ p2) l = true) : occursIn p1 l = true := by
  induction l with
  | nil =>
    simp only [occursIn] at h
    have h1 := (leadsWith_nil_iff (p1 ++ p2)).mp h
    have h2 : p1 = [] := by
      cases p1 with
      | nil => rfl
      | cons a as => simp at h1
    rw [h2]; simpa using occursIn_nil_of_eq_nil ([] : List Char)
  | cons c cs ih =>
    simp only [occursIn, Bool.or_eq_true] at h ⊢
    rcases h with h | h
    · exact Or.inl (leadsWith_of_concat p1 p2 (c :: cs) h)
    · exact Or.inr (ih h)

theorem replaceAllF_no_occurs (pat rep : List Char) (fuel : Nat)
    (l : List Char) (hocc : occursIn pat l = false)
    (hfuel : l.length ≤ fuel) : replaceAllF pat rep fuel l = l := by
  induction fuel generalizing l with
  | zero =>
    have : l = [] := List.eq_nil_of_length_eq_zero (Nat.le_zero.mp hfuel)
    subst this
    rfl
  | succ fuel ih =>
    cases l with
    | nil => rfl
    | cons c rest =>
      simp only [occursIn, Bool.or_eq_false_iff] at hocc
      simp only [replaceAllF, hocc.1, Bool.false_eq_true, if_false,
        List.cons.injEq, true_and]
      exact ih rest hocc.2 (by simpa using Nat.le_of_succ_le_succ hfuel)

theorem replaceTriple_head (b : Char) (fuel : Nat) (l : List Char)
    (h : leadsWith [b] (replaceAllF [b, b, b] [] fuel l) = true) :
    leadsWith [b] l = true := by
  cases fuel with
  | zero =>
    cases l with
    | nil => simpa [replaceAllF] using h
    | cons c rest => simpa [replaceAllF] using h
  | succ fuel =>
    cases l with
    | nil => simpa [replaceAllF] using h
    | cons c rest =>
      by_cases hm : leadsWith [b, b, b] (c :: rest) = true
      · simp only [leadsWith, Bool.and_eq_true] at hm
        simp [leadsWith, hm.1]
      · simp only [replaceAllF, hm, if_false] at h
        simp only [leadsWith, Bool.and_eq_true] at h ⊢
        exact ⟨h.1, trivial⟩

theorem replaceTriple_head2 (b : Char) (fuel : Nat) (l : List Char)
    (h : leadsWith [b, b] (replaceAllF [b, b, b] [] fuel l) = true) :
    leadsWith [b, b] l = true := by
  induction fuel generalizing l with
  | zero =>
    cases l with
    | nil => simpa [replaceAllF] using h
    | cons c rest => simpa [replaceAllF] using h
  | succ fuel ih =>
    cases l with
    | nil => simpa [replaceAllF] using h
    | cons c rest =>
      by_cases hm : leadsWith [b, b, b] (c :: rest) = true
      · exact leadsWith_of_concat [b, b] [b] (c :: rest) hm
      · simp only [replaceAllF, hm, if_false] at h
        simp only [leadsWith, Bool.and_eq_true] at h ⊢
        exact ⟨h.1, replaceTriple_head b fuel rest h.2⟩

theorem replaceTriple_no_occurs (b : Char) (fuel : Nat) (l : List Char)
    (hfuel : l.length ≤ fuel) :
    occursIn [b, b, b] (replaceAllF [b, b, b] [] fuel l) = false := by
  induction fuel generalizing l with
  | zero =>
    have : l = [] := List.eq_nil_of_length_eq_zero (Nat.le_zero.mp hfuel)
    subst this
    simp [replaceAllF, occursIn, leadsWith]
  | succ fuel ih =>
    cases l with
    | nil => simp [replaceAllF, occursIn, leadsWith]
    | cons c rest =>
      by_cases hm : leadsWith [b, b, b] (c :: rest) = true
      · simp only [replaceAllF, hm, if_true, List.nil_append]
        exact ih _ (by
          simp only [List.length_drop, List.length_cons, List.length_nil]
            at hfuel ⊢
          omega)
      · simp only [replaceAllF, hm, if_false]
        simp only [occursIn, Bool.or_eq_false_iff]
        refine ⟨?_, ih rest (by
          simp only [List.length_cons] at hfuel
          omega)⟩
        by_contra hlead
        rw [Bool.not_eq_false] at hlead
        simp only [leadsWith, Bool.and_eq_true] at hlead
        have h2 := replaceTriple_head2 b fuel rest hlead.2
        apply hm
        simp only [leadsWith, Bool.and_eq_true]
        exact ⟨hlead.1, h2⟩

theorem stripWhile_infix (p : Char → Bool) (l : List Char) :
    ∃ x y, l = x ++ stripWhile p l ++ y := by
  refine ⟨l.takeWhile p, ((l.dropWhile p).reverse.takeWhile p).reverse, ?_⟩
  conv_lhs => rw [← List.takeWhile_append_dropWhile (p := p) (l := l)]
  rw [List.append_assoc]
  congr 1
  conv_lhs => rw [← List.reverse_reverse (l.dropWhile p)]
  conv_lhs =>
    rw [← List.takeWhile_append_dropWhile (p := p) (l := (l.dropWhile p).reverse)]
  rw [List.reverse_append]
  rfl

theorem occursIn_stripWhile (pat : List Char) (p : Char → Bool) (l : List Char)
    (h : occursIn pat l = false) : occursIn pat (stripWhile p l) = false := by
  by_contra hocc
  rw [Bool.not_eq_false] at hocc
  obtain ⟨x, y, hd⟩ := stripWhile_infix p l
  have h1 := occursIn_append_left pat (stripWhile p l) y hocc
  have h2 := occursIn_append_right pat x (stripWhile p l ++ y) h1
  rw [← List.append_assoc, ← hd] at h2
  rw [h2] at h
  exact Bool.true_eq_false.mp h

theorem dropWhile_head_false (p : Char → Bool) (l : List Char) (c : Char)
    (t : List Char) (h : l.dropWhile p = c :: t) : p c = false := by
  induction l with
  | nil => simp at h
  | cons a as ih =>
    rw [List.dropWhile_cons] at h
    by_cases hp : p a = true
    · rw [if_pos hp] at h
      exact ih h
    · rw [if_neg hp] at h
      injection h with h1 h2
      subst h1
      simpa using hp

theorem dropWhile_self (p : Char → Bool) (l : List Char) :
    (l.dropWhile p).dropWhile p = l.dropWhile p := by
  cases h : l.dropWhile p with
  | nil => simp
  | cons c t =>
    have hc := dropWhile_head_false p l c t h
    simp [List.dropWhile_cons, hc]

theorem stripWhile_head_false (p : Char → Bool) (l : List Char) (c : Char)
    (t : List Char) (h : stripWhile p l = c :: t) : p c = false := by
  have hd : l.dropWhile p
      = ((l.dropWhile p).reverse.dropWhile p).reverse
        ++ ((l.dropWhile p).reverse.takeWhile p).reverse := by
    conv_lhs => rw [← List.reverse_reverse (l.dropWhile p),
      ← List.takeWhile_append_dropWhile (p := p)
        (l := (l.dropWhile p).reverse),
      List.reverse_append]
  have hs : ((l.dropWhile p).reverse.dropWhile p).reverse = c :: t := h
  rw [hs, List.cons_append] at hd
  exact dropWhile_head_false p l c _ hd

theorem stripWhile_dropWhile (p : Char → Bool) (l : List Char) :
    (stripWhile p l).dropWhile p = stripWhile p l := by
  cases h : stripWhile p l with
  | nil => simp
  | cons c t =>
    have hc := stripWhile_head_false p l c t h
    simp [List.dropWhile_cons, hc]

theorem stripWhile_idem (p : Char → Bool) (l : List Char) :
    stripWhile p (stripWhile p l) = stripWhile p l := by
  show ((((stripWhile p l).dropWhile p).reverse).dropWhile p).reverse
      = stripWhile p l
  rw [stripWhile_dropWhile]
  show (((((l.dropWhile p).reverse.dropWhile p).reverse).reverse).dropWhile
      p).reverse = stripWhile p l
  rw [List.reverse_reverse, dropWhile_self]
  rfl

/-- A fence-stripped reply contains no triple backtick. -/
theorem strip_fences_data_no_triple (s : String) :
    occursIn fenceMark (strip_fences s).data = false := by
  show occursIn fenceMark (stripWhile pyIsSpace
    (pyReplaceAll fenceMark [] (pyReplaceAll fencePythonMark [] s.data))) = false
  apply occursIn_stripWhile
  rw [fenceMark_eq]
  exact replaceTriple_no_occurs btick _ _ (Nat.le_refl _)

/-- A string with no triple backtick anywhere has no occurrence of the
`{3 backticks}python` marker either. -/
theorem no_fencePython_of_no_fence (l : List Char)
    (h : occursIn fenceMark l = false) : occursIn fencePythonMark l = false := by
  by_contra hocc
  rw [Bool.not_eq_false] at hocc
  rw [fencePythonMark_eq] at hocc
  rw [occursIn_of_concat _ _ _ hocc] at h
  exact Bool.true_eq_false.mp h

theorem pyReplaceAll_no_occurs (pat rep l : List Char)
    (h : occursIn pat l = false) : pyReplaceAll pat rep l = l :=
  replaceAllF_no_occurs pat rep l.length l h (Nat.le_refl _)

/-- On a reply with no triple backtick, the fence-stripping step is exactly a
whitespace trim. -/
theorem strip_fences_of_no_fence (s : String)
    (h : occursIn fenceMark s.data = false) : strip_fences s = py_strip s := by
  show String.mk (stripWhile pyIsSpace
      (pyReplaceAll fenceMark [] (pyReplaceAll fencePythonMark [] s.data)))
    = py_strip s
  rw [pyReplaceAll_no_occurs fencePythonMark [] s.data
    (no_fencePython_of_no_fence s.data h)]
  rw [pyReplaceAll_no_occurs fenceMark [] s.data h]
  rfl

/-- Fence stripping is idempotent on every string. -/
theorem strip_fences_idem_lemma (s : String) :
    strip_fences (strip_fences s) = strip_fences s := by
  have hno := strip_fences_data_no_triple s
  rw [strip_fences_of_no_fence _ hno]
  show String.mk (stripWhile pyIsSpace (strip_fences s).data) = strip_fences s
  show String.mk (stripWhile pyIsSpace (stripWhile pyIsSpace
    (pyReplaceAll fenceMark [] (pyReplaceAll fencePythonMark [] s.data))))
    = strip_fences s
  rw [stripWhile_idem]
  rfl

end BlenderMCP

namespace BlenderMCP

/-! ### Lemmas about the key resolution and the operators -/

theorem resolve_env_wins (ext : ExtEnv) (ui v : String)
    (h : ext.procEnv "GEMINI_API_KEY" = some v) (hv : v ≠ "") :
    resolve_api_key ext ui = v := by
  simp only [resolve_api_key, h]
  simp [truthy, hv]

theorem resolve_file_wins (ext : ExtEnv) (ui : String)
    (hp : truthy (ext.procEnv "GEMINI_API_KEY") = false) (w : String)
    (hw : manual_env_parse ext.envFile "GEMINI_API_KEY" = some w)
    (hwne : w ≠ "") : resolve_api_key ext ui = w := by
  cases hpe : ext.procEnv "GEMINI_API_KEY" with
  | none =>
    simp only [resolve_api_key, hpe, hw]
    simp [truthy, hwne]
  | some v =>
    rw [hpe] at hp
    simp only [truthy, Bool.not_eq_false'] at hp
    have hv : v = "" := by simpa using hp
    subst hv
    simp only [resolve_api_key, hpe, hw]
    simp [truthy, hwne]

theorem resolve_ui_wins (ext : ExtEnv) (ui : String)
    (hp : truthy (ext.procEnv "GEMINI_API_KEY") = false)
    (hf : truthy (manual_env_parse ext.envFile "GEMINI_API_KEY") = false) :
    resolve_api_key ext ui = ui := by
  cases hpe : ext.procEnv "GEMINI_API_KEY" with
  | none =>
    cases hfe : manual_env_parse ext.envFile "GEMINI_API_KEY" with
    | none => simp [resolve_api_key, hpe, hfe, truthy]
    | some w =>
      rw [hfe] at hf
      simp only [truthy, Bool.not_eq_false'] at hf
      have hw : w = "" := by simpa using hf
      subst hw
      simp [resolve_api_key, hpe, hfe, truthy]
  | some v =>
    rw [hpe] at hp
    simp only [truthy, Bool.not_eq_false'] at hp
    have hv : v = "" := by simpa using hp
    subst hv
    cases hfe : manual_env_parse ext.envFile "GEMINI_API_KEY" with
    | none => simp [resolve_api_key, hpe, hfe, truthy]
    | some w =>
      rw [hfe] at hf
      simp only [truthy, Bool.not_eq_false'] at hf
      have hw : w = "" := by simpa using hf
      subst hw
      simp [resolve_api_key, hpe, hfe, truthy]

theorem testConnection_resolvedKey (ext : ExtEnv) (s : Settings) :
    (GEMINI_MCP_OT_TestConnection_execute ext s).resolvedKey
      = resolve_api_key ext s.api_key := by
  simp only [GEMINI_MCP_OT_TestConnection_execute]
  repeat' split
  all_goals rfl

theorem execute_resolvedKey (ext : ExtEnv) (s : Settings) :
    (GEMINI_MCP_OT_Execute_execute ext s).resolvedKey
      = resolve_api_key ext s.api_key := by
  simp only [GEMINI_MCP_OT_Execute_execute]
  repeat' split
  all_goals rfl

theorem stop_recording_resolvedKey (ext : ExtEnv) (s : Settings)
    (recording : List (List Int)) (hrec : recording ≠ []) :
    (GEMINI_MCP_OT_VoiceRecord_stop_recording ext s recording).resolvedKey
      = resolve_api_key ext s.api_key := by
  simp only [GEMINI_MCP_OT_VoiceRecord_stop_recording, if_neg hrec]
  repeat' split
  all_goals rfl

theorem stop_recording_preserves_flag (ext : ExtEnv) (s : Settings)
    (recording : List (List Int)) :
    (GEMINI_MCP_OT_VoiceRecord_stop_recording ext s
        recording).settings.is_recording = s.is_recording := by
  simp only [GEMINI_MCP_OT_VoiceRecord_stop_recording]
  repeat' split
  all_goals rfl

end BlenderMCP

namespace BlenderMCP

/-! ### Concrete fixtures used by the witnesses and counterexamples -/

/-- Default-shaped settings record: empty UI key, the default model, nothing
recorded, empty transcript. -/
def settingsBase : Settings :=
  { api_key := "", prompt_input := "Create a procedural crystal formation",
    model_name := "gemini-3-flash-preview", connection_status := .NONE,
    is_recording := false, chat_history := [] }

/-- Settings with an empty prompt, for the end-to-end missing-key scenario. -/
def settingsEmptyPrompt : Settings := { settingsBase with prompt_input := "" }

/-- World with the key in the process environment and a different key in the
`.env` file. -/
def extEnvWins : ExtEnv :=
  { procEnv := fun k => if k = "GEMINI_API_KEY" then some "env-key" else none,
    envFile := some ["GEMINI_API_KEY=file-key"],
    generate := fun _ _ => .ok "print(1)",
    generateAudio := fun _ _ => .ok "print(1)",
    runCode := fun _ => .ok (),
    startStream := .ok () }

/-- World with no key anywhere: empty environment, no `.env` file. -/
def extNoKey : ExtEnv :=
  { procEnv := fun _ => none, envFile := none,
    generate := fun _ _ => .ok "print(1)",
    generateAudio := fun _ _ => .ok "print(1)",
    runCode := fun _ => .ok (),
    startStream := .ok () }

/-- World with an environment key whose remote call raises. -/
def extKeyRemoteFails : ExtEnv :=
  { extEnvWins with generate := fun _ _ => .error "429 quota exceeded" }

/-- World with an environment key whose audio-capture start raises. -/
def extStartFails : ExtEnv :=
  { extEnvWins with startStream := .error "PortAudio error" }

/-- World with an environment key whose voice reply strips to the empty
string. -/
def extVoiceEmptyReply : ExtEnv :=
  { extEnvWins with generateAudio := fun _ _ => .ok "```" }

/-- World with an environment key whose voice reply is a fenced script. -/
def extVoiceFencedReply : ExtEnv :=
  { extEnvWins with generateAudio := fun _ _ => .ok "```python\nprint(1)\n```" }

/-- World with an environment key whose generated code raises on `exec`. -/
def extExecFails : ExtEnv :=
  { extEnvWins with runCode := fun _ => .error "NameError: name 'bpyy' is not defined" }

end BlenderMCP

namespace BlenderMCP

/-! ### The claims -/

/-- C1: for every secret resolution performed by Test Connection, Generate &
Run, and the voice stop handler, a non-empty process-environment
`GEMINI_API_KEY` always wins; otherwise a non-empty `.env` file value wins;
otherwise the UI-entered `settings.api_key` is used.  The first conjunct ties
the three operators to the shared resolution, the rest states the
precedence. -/
theorem c1_secret_resolution_precedence (ext : ExtEnv) (s : Settings) :
    ((GEMINI_MCP_OT_TestConnection_execute ext s).resolvedKey
        = resolve_api_key ext s.api_key
      ∧ (GEMINI_MCP_OT_Execute_execute ext s).resolvedKey
        = resolve_api_key ext s.api_key
      ∧ ∀ recording : List (List Int), recording ≠ [] →
        (GEMINI_MCP_OT_VoiceRecord_stop_recording ext s recording).resolvedKey
          = resolve_api_key ext s.api_key)
    ∧ (∀ v, ext.procEnv "GEMINI_API_KEY" = some v → v ≠ "" →
        resolve_api_key ext s.api_key = v)
    ∧ (truthy (ext.procEnv "GEMINI_API_KEY") = false →
        ∀ w, manual_env_parse ext.envFile "GEMINI_API_KEY" = some w → w ≠ "" →
        resolve_api_key ext s.api_key = w)
    ∧ (truthy (ext.procEnv "GEMINI_API_KEY") = false →
        truthy (manual_env_parse ext.envFile "GEMINI_API_KEY") = false →
        resolve_api_key ext s.api_key = s.api_key) :=
  ⟨⟨testConnection_resolvedKey ext s, execute_resolvedKey ext s,
      fun recording hrec => stop_recording_resolvedKey ext s recording hrec⟩,
    fun v h hv => resolve_env_wins ext s.api_key v h hv,
    fun hp w hw hwne => resolve_file_wins ext s.api_key hp w hw hwne,
    fun hp hf => resolve_ui_wins ext s.api_key hp hf⟩

/-- Witness for C1 at a concrete world: the environment key beats both the
`.env` file key and the UI key. -/
theorem c1_secret_resolution_precedence_witness :
    extEnvWins.procEnv "GEMINI_API_KEY" = some "env-key"
    ∧ manual_env_parse extEnvWins.envFile "GEMINI_API_KEY" = some "file-key"
    ∧ resolve_api_key extEnvWins settingsBase.api_key = "env-key" :=
  ⟨by decide, by decide,
    (c1_secret_resolution_precedence extEnvWins settingsBase).2.1 "env-key"
      (by decide) (by decide)⟩

end BlenderMCP

namespace BlenderMCP

/-- C2: when no key is found in the environment, the `.env` file, or the UI
settings, the Generate & Run operator — for any prompt, including the empty
one — reports `Missing API Key` and returns `CANCELLED` with no client
constructed, no network call made, and the settings untouched. -/
theorem c2_missing_key_blocks_execute (ext : ExtEnv) (s : Settings)
    (henv : truthy (ext.procEnv "GEMINI_API_KEY") = false)
    (hfile : truthy (manual_env_parse ext.envFile "GEMINI_API_KEY") = false)
    (hui : s.api_key = "") :
    (GEMINI_MCP_OT_Execute_execute ext s).reports
        = [⟨"ERROR", "Missing API Key"⟩]
    ∧ (GEMINI_MCP_OT_Execute_execute ext s).retval = "CANCELLED"
    ∧ (GEMINI_MCP_OT_Execute_execute ext s).networkCalls = 0
    ∧ (GEMINI_MCP_OT_Execute_execute ext s).clientMade = false
    ∧ (GEMINI_MCP_OT_Execute_execute ext s).settings = s := by
  have hk : resolve_api_key ext s.api_key = "" := by
    rw [resolve_ui_wins ext s.api_key henv hfile, hui]
  simp [GEMINI_MCP_OT_Execute_execute, hk]

/-- Witness for C2: empty prompt and no key anywhere. -/
theorem c2_missing_key_blocks_execute_witness :
    truthy (extNoKey.procEnv "GEMINI_API_KEY") = false
    ∧ truthy (manual_env_parse extNoKey.envFile "GEMINI_API_KEY") = false
    ∧ settingsEmptyPrompt.api_key = ""
    ∧ (GEMINI_MCP_OT_Execute_execute extNoKey settingsEmptyPrompt).networkCalls
        = 0
    ∧ (GEMINI_MCP_OT_Execute_execute extNoKey settingsEmptyPrompt).retval
        = "CANCELLED" :=
  ⟨by decide, by decide, by decide,
    (c2_missing_key_blocks_execute extNoKey settingsEmptyPrompt
      (by decide) (by decide) (by decide)).2.2.1,
    (c2_missing_key_blocks_execute extNoKey settingsEmptyPrompt
      (by decide) (by decide) (by decide)).2.1⟩

/-- C3: with a resolved key, the connection probe sets
`connection_status = SUCCESS` and surfaces an informational notice when the
remote call succeeds, and sets `connection_status = FAILED` and surfaces the
exception message verbatim (inside the fixed `Connection Failed: ` wrapper)
when the remote call raises. -/
theorem c3_probe_status_and_report (ext : ExtEnv) (s : Settings)
    (hk : resolve_api_key ext s.api_key ≠ "") :
    (∀ t, ext.generate s.model_name "ping" = .ok t →
      (GEMINI_MCP_OT_TestConnection_execute ext s).settings.connection_status
          = .SUCCESS
      ∧ (GEMINI_MCP_OT_TestConnection_execute ext s).reports
          = [⟨"INFO", "Gemini: Connection Successful!"⟩])
    ∧ (∀ e, ext.generate s.model_name "ping" = .error e →
      (GEMINI_MCP_OT_TestConnection_execute ext s).settings.connection_status
          = .FAILED
      ∧ (GEMINI_MCP_OT_TestConnection_execute ext s).reports
          = [⟨"ERROR", "Connection Failed: " ++ e⟩]) := by
  constructor
  · intro t ht
    constructor <;> simp [GEMINI_MCP_OT_TestConnection_execute, hk, ht]
  · intro e he
    constructor <;> simp [GEMINI_MCP_OT_TestConnection_execute, hk, he]

/-- Witness for C3 at a concrete world whose remote call raises: status
becomes `FAILED` and the quota message is surfaced verbatim. -/
theorem c3_probe_status_and_report_witness :
    resolve_api_key extKeyRemoteFails settingsBase.api_key ≠ ""
    ∧ extKeyRemoteFails.generate settingsBase.model_name "ping"
        = Except.error "429 quota exceeded"
    ∧ (GEMINI_MCP_OT_TestConnection_execute extKeyRemoteFails
        settingsBase).settings.connection_status = ConnStatus.FAILED
    ∧ (GEMINI_MCP_OT_TestConnection_execute extKeyRemoteFails
        settingsBase).reports
        = [⟨"ERROR", "Connection Failed: 429 quota exceeded"⟩] :=
  ⟨by decide, rfl,
    ((c3_probe_status_and_report extKeyRemoteFails settingsBase
      (by decide)).2 "429 quota exceeded" rfl).1,
    ((c3_probe_status_and_report extKeyRemoteFails settingsBase
      (by decide)).2 "429 quota exceeded" rfl).2⟩

end BlenderMCP

namespace BlenderMCP

/-- Counterexample for C4 as stated: the fence marker of another language does
NOT pass through the stripping step unmodified — its triple backtick is
removed, leaving the bare tag. -/
theorem c4_counterexample_other_fence_modified :
    strip_fences "```javascript" = "javascript"
    ∧ strip_fences "```javascript" ≠ "```javascript" := by
  constructor <;> decide

/-- C4 (amended): the stripping step removes every occurrence of the two fixed
markers anywhere in the reply, so only replies containing no triple backtick
at all — e.g. embedded single or double backticks — pass through it
unmodified apart from the whitespace trim. -/
theorem c4_no_triple_backtick_passthrough (s : String)
    (h : occursIn fenceMark s.data = false) :
    strip_fences s = py_strip s :=
  strip_fences_of_no_fence s h

/-- Witness for C4 (amended): single backticks embedded in a reply survive the
stripping step. -/
theorem c4_no_triple_backtick_passthrough_witness :
    occursIn fenceMark "print(`x` + ``y``)".data = false
    ∧ strip_fences "print(`x` + ``y``)" = py_strip "print(`x` + ``y``)" :=
  ⟨by decide, c4_no_triple_backtick_passthrough "print(`x` + ``y``)" (by decide)⟩

/-- C5: fence-stripping is idempotent — proved for every input string, which
subsumes the claim's restriction to inputs with at most one fenced block. -/
theorem c5_strip_fences_idempotent (s : String) :
    strip_fences (strip_fences s) = strip_fences s :=
  strip_fences_idem_lemma s

/-- C6: the exact remote reply containing one python-fenced `print(1)` strips
to exactly `print(1)`. -/
theorem c6_fixed_reply_strips_to_print1 :
    strip_fences "```python\nprint(1)\n```" = "print(1)" := by
  decide

end BlenderMCP

namespace BlenderMCP

/-- C7: the recording flag is false before capture starts and after capture
stops on every path — the modal start is only reached with the flag down, a
press while recording clears the flag, a start exception resets it and
cancels, the stop handler never raises it, and the modal loop never changes
it. -/
theorem c7_recording_flag_invariant (ext : ExtEnv) (s : Settings) :
    ((GEMINI_MCP_OT_VoiceRecord_execute ext s).2 = "RUNNING_MODAL" →
      s.is_recording = false)
    ∧ (s.is_recording = true →
      (GEMINI_MCP_OT_VoiceRecord_execute ext s).1.is_recording = false)
    ∧ (∀ e, s.is_recording = false → ext.startStream = .error e →
      (GEMINI_MCP_OT_VoiceRecord_execute ext s).1.is_recording = false
      ∧ (GEMINI_MCP_OT_VoiceRecord_execute ext s).2 = "CANCELLED")
    ∧ (∀ recording : List (List Int), s.is_recording = false →
      (GEMINI_MCP_OT_VoiceRecord_stop_recording ext s
        recording).settings.is_recording = false)
    ∧ (∀ (recording : List (List Int)) (eventType : String),
      (GEMINI_MCP_OT_VoiceRecord_modal ext s recording
        eventType).1.is_recording = s.is_recording) := by
  refine ⟨?_, ?_, ?_, ?_, ?_⟩
  · intro h
    by_cases hr : s.is_recording = true
    · unfold GEMINI_MCP_OT_VoiceRecord_execute at h
      rw [if_pos hr] at h
      simp at h
    · simpa using hr
  · intro hr
    unfold GEMINI_MCP_OT_VoiceRecord_execute
    rw [if_pos hr]
  · intro e hr he
    unfold GEMINI_MCP_OT_VoiceRecord_execute
    rw [if_neg (by simp [hr]), he]
    exact ⟨rfl, rfl⟩
  · intro recording hr
    rw [stop_recording_preserves_flag ext s recording, hr]
  · intro recording eventType
    unfold GEMINI_MCP_OT_VoiceRecord_modal
    split
    · exact stop_recording_preserves_flag ext s recording
    · rfl

/-- Witness for C7: with the flag down and a failing capture start, the
operator cancels with the flag still down. -/
theorem c7_recording_flag_invariant_witness :
    settingsBase.is_recording = false
    ∧ extStartFails.startStream = Except.error "PortAudio error"
    ∧ (GEMINI_MCP_OT_VoiceRecord_execute extStartFails
        settingsBase).1.is_recording = false
    ∧ (GEMINI_MCP_OT_VoiceRecord_execute extStartFails settingsBase).2
        = "CANCELLED" :=
  ⟨rfl, rfl,
    ((c7_recording_flag_invariant extStartFails settingsBase).2.2.1
      "PortAudio error" rfl rfl).1,
    ((c7_recording_flag_invariant extStartFails settingsBase).2.2.1
      "PortAudio error" rfl rfl).2⟩

/-- C8: whenever the stop handler writes the temporary WAV file, the file no
longer exists once the handler returns, on the missing-key, remote-failure,
empty-reply, evaluation-failure and success paths alike. -/
theorem c8_temp_file_removed (ext : ExtEnv) (s : Settings)
    (recording : List (List Int))
    (h : (GEMINI_MCP_OT_VoiceRecord_stop_recording ext s
        recording).tempFileWritten = true) :
    (GEMINI_MCP_OT_VoiceRecord_stop_recording ext s
        recording).tempFileExists = false := by
  simp only [GEMINI_MCP_OT_VoiceRecord_stop_recording]
  repeat' split
  all_goals rfl

/-- Witness for C8: audio was recorded but no key resolves, so the handler
takes the missing-key early return; the file was written and is gone. -/
theorem c8_temp_file_removed_witness :
    (GEMINI_MCP_OT_VoiceRecord_stop_recording extNoKey settingsBase
        [[0]]).tempFileWritten = true
    ∧ (GEMINI_MCP_OT_VoiceRecord_stop_recording extNoKey settingsBase
        [[0]]).tempFileExists = false :=
  ⟨by decide, c8_temp_file_removed extNoKey settingsBase [[0]] (by decide)⟩

end BlenderMCP

namespace BlenderMCP

/-- Counterexample for C9 as stated: with recorded audio, a resolved key and a
remote reply (here a bare fence, which strips to the empty string), the stop
handler appends NO transcript entries, not two. -/
theorem c9_counterexample_empty_strip_appends_nothing :
    resolve_api_key extVoiceEmptyReply settingsBase.api_key ≠ ""
    ∧ extVoiceEmptyReply.generateAudio settingsBase.model_name
        ([[0]] : List (List Int)).flatten = Except.ok "```"
    ∧ (GEMINI_MCP_OT_VoiceRecord_stop_recording extVoiceEmptyReply
        settingsBase [[0]]).settings.chat_history = []
    ∧ (GEMINI_MCP_OT_VoiceRecord_stop_recording extVoiceEmptyReply
        settingsBase [[0]]).reports
        = [⟨"INFO", "Processing voice command..."⟩,
           ⟨"WARNING", "Gemini did not return any code."⟩] :=
  ⟨by decide, rfl, by decide, by decide⟩

/-- C9 (amended): on a voice stop with recorded audio, a resolved key and a
reply whose fence-stripped text is non-empty and evaluates without raising,
the stop handler runs exactly the fence-stripped code through the same
`strip_fences` used by the text executor and appends exactly two transcript
entries, a user entry followed by an ai entry; a reply that strips to the
empty string appends none. -/
theorem c9_two_entries_on_nonempty_strip (ext : ExtEnv) (s : Settings)
    (recording : List (List Int)) (t : String)
    (hrec : recording ≠ [])
    (hkey : resolve_api_key ext s.api_key ≠ "")
    (hgen : ext.generateAudio s.model_name recording.flatten = .ok t)
    (hne : strip_fences t ≠ "")
    (hrun : ext.runCode (strip_fences t) = .ok ()) :
    (GEMINI_MCP_OT_VoiceRecord_stop_recording ext s recording).execed
        = [strip_fences t]
    ∧ (GEMINI_MCP_OT_VoiceRecord_stop_recording ext s
        recording).settings.chat_history
        = s.chat_history ++ [⟨.user, "[Voice Command]"⟩,
            ⟨.ai, "Executed voice command."⟩] := by
  constructor <;>
    simp [GEMINI_MCP_OT_VoiceRecord_stop_recording, hrec, hkey, hgen, hne,
      hrun]

/-- Witness for C9 (amended) at a concrete fenced voice reply. -/
theorem c9_two_entries_on_nonempty_strip_witness :
    strip_fences "```python\nprint(1)\n```" ≠ ""
    ∧ (GEMINI_MCP_OT_VoiceRecord_stop_recording extVoiceFencedReply
        settingsBase [[0]]).settings.chat_history
        = [⟨Role.user, "[Voice Command]"⟩,
           ⟨Role.ai, "Executed voice command."⟩] :=
  ⟨by decide,
    (c9_two_entries_on_nonempty_strip extVoiceFencedReply settingsBase
      [[0]] "```python\nprint(1)\n```" (by decide) (by decide) rfl
      (by decide) rfl).2⟩

/-- C10: when the remote call of Generate & Run raises, or the evaluation of
the fence-stripped reply raises, the chat transcript is left exactly as it
was before the invocation. -/
theorem c10_transcript_unchanged_on_error (ext : ExtEnv) (s : Settings)
    (hk : resolve_api_key ext s.api_key ≠ "") :
    (∀ e, ext.generate s.model_name (executeInstruction ++ s.prompt_input)
        = .error e →
      (GEMINI_MCP_OT_Execute_execute ext s).settings.chat_history
        = s.chat_history)
    ∧ (∀ t e, ext.generate s.model_name (executeInstruction ++ s.prompt_input)
        = .ok t →
      ext.runCode (strip_fences t) = .error e →
      (GEMINI_MCP_OT_Execute_execute ext s).settings.chat_history
        = s.chat_history) := by
  constructor
  · intro e he
    simp [GEMINI_MCP_OT_Execute_execute, hk, he]
  · intro t e ht hr
    simp [GEMINI_MCP_OT_Execute_execute, hk, ht, hr]

/-- Witness for C10 at a concrete world whose `exec` raises: the transcript
stays empty. -/
theorem c10_transcript_unchanged_on_error_witness :
    resolve_api_key extExecFails settingsBase.api_key ≠ ""
    ∧ (GEMINI_MCP_OT_Execute_execute extExecFails
        settingsBase).settings.chat_history = settingsBase.chat_history :=
  ⟨by decide,
    (c10_transcript_unchanged_on_error extExecFails settingsBase
      (by decide)).2 "print(1)" "NameError: name 'bpyy' is not defined"
      rfl rfl⟩

end BlenderMCP
